import Mathlib

/-!
Verification of the request-orchestration code in `app/main.py` of the
Mental-Health-Therapist capstone backend.

The handler `analyze_turn` is sequential glue over three external service
clients (audio analysis, video analysis, therapy model) and a trigger-word
checker.  Those collaborators are out of scope (black boxes), so the
embedding parameterises the handler over a `Clients` record whose service
calls may either return a value or raise an exception (`Except ε`).

Python values reaching the handler are modelled by the inductive `PyVal`:
JSON primitives, lists, dicts (association lists with string keys, unique
in practice), plus the NumPy numeric wrapper types that the audio/video
client libraries produce (`np.floating`, `np.integer`, `np.ndarray`).
Float payloads carry a `Rat`; no arithmetic is ever performed on them, the
code only moves them around, so the carrier is irrelevant.  NumPy arrays
are homogeneous numeric arrays: their elements are numbers or nested
arrays (`NpElem`), and `.tolist()` converts them to plain nested lists.
-/

/-- Element of a NumPy ndarray: a float, an integer, or a nested array
(ndarrays are homogeneous numeric arrays; `.tolist()` recursively converts
them to plain Python lists of plain numbers). -/
inductive NpElem : Type where
  | f (q : Rat)
  | i (n : Int)
  | arr (xs : List NpElem)
deriving Repr

/-- A Python value as seen by `app/main.py`: JSON primitives, lists, dicts,
and the three NumPy wrapper shapes that `prepare_data_for_json`
special-cases. -/
inductive PyVal : Type where
  | none
  | bool (b : Bool)
  | int (n : Int)
  | float (q : Rat)
  | str (s : String)
  | list (xs : List PyVal)
  | dict (kvs : List (String × PyVal))
  | npFloating (q : Rat)
  | npInteger (n : Int)
  | npNdarray (xs : List NpElem)
deriving Repr

/-- `ndarray.tolist()` on one element: NumPy scalars become plain Python
numbers, nested arrays become plain lists. -/
def NpElem.toPy : NpElem → PyVal
  | .f q => .float q
  | .i n => .int n
  | .arr xs => .list (xs.attach.map fun x => NpElem.toPy x.1)
decreasing_by
  have h := List.sizeOf_lt_of_mem x.2
  simp only [NpElem.arr.sizeOf_spec]
  omega

/-- `prepare_data_for_json` from `app/main.py` (lines 15-36): recursively
converts NumPy numeric types to standard Python types.  The `isinstance`
chain checks dict, list, `np.floating`, `np.integer`, `np.ndarray` in that
order and returns anything else unchanged. -/
def prepare_data_for_json : PyVal → PyVal
  | .dict kvs => .dict (kvs.attach.map fun p => (p.1.1, prepare_data_for_json p.1.2))
  | .list xs => .list (xs.attach.map fun x => prepare_data_for_json x.1)
  | .npFloating q => .float q
  | .npInteger n => .int n
  | .npNdarray xs => .list (xs.map NpElem.toPy)
  | x => x
decreasing_by
  · have h := List.sizeOf_lt_of_mem p.2
    have h2 : sizeOf p.1.2 < sizeOf p.1 := by
      obtain ⟨⟨a, b⟩, hp⟩ := p
      simp only [Prod.mk.sizeOf_spec]
      omega
    simp only [PyVal.dict.sizeOf_spec]
    omega
  · have h := List.sizeOf_lt_of_mem x.2
    simp only [PyVal.list.sizeOf_spec]
    omega

/-- Unfolding lemma: `NpElem.toPy` on arrays maps over the elements. -/
theorem NpElem.toPy_arr (xs : List NpElem) :
    NpElem.toPy (.arr xs) = .list (xs.map NpElem.toPy) := by
  rw [NpElem.toPy]
  simp [List.map_attach]

/-- Unfolding lemma: `prepare_data_for_json` on dicts maps over the values. -/
theorem prepare_dict (kvs : List (String × PyVal)) :
    prepare_data_for_json (.dict kvs) =
      .dict (kvs.map fun p => (p.1, prepare_data_for_json p.2)) := by
  rw [prepare_data_for_json]
  simp [List.map_attach]

/-- Unfolding lemma: `prepare_data_for_json` on lists maps over the elements. -/
theorem prepare_list (xs : List PyVal) :
    prepare_data_for_json (.list xs) = .list (xs.map prepare_data_for_json) := by
  rw [prepare_data_for_json]
  simp [List.map_attach]

/-- No NumPy wrapper anywhere in a value: every leaf is a plain Python
primitive (None, bool, int, float, or string). -/
def noNp : PyVal → Bool
  | .dict kvs => kvs.attach.all fun p => noNp p.1.2
  | .list xs => xs.attach.all fun x => noNp x.1
  | .npFloating _ => false
  | .npInteger _ => false
  | .npNdarray _ => false
  | _ => true
decreasing_by
  · have h := List.sizeOf_lt_of_mem p.2
    have h2 : sizeOf p.1.2 < sizeOf p.1 := by
      obtain ⟨⟨a, b⟩, hp⟩ := p
      simp only [Prod.mk.sizeOf_spec]
      omega
    simp only [PyVal.dict.sizeOf_spec]
    omega
  · have h := List.sizeOf_lt_of_mem x.2
    simp only [PyVal.list.sizeOf_spec]
    omega

/-- Membership-based characterisation of `noNp` on lists. -/
theorem noNp_list_iff (xs : List PyVal) :
    noNp (.list xs) = true ↔ ∀ x ∈ xs, noNp x = true := by
  rw [noNp, List.all_eq_true]
  constructor
  · intro h x hx
    exact h ⟨x, hx⟩ (List.mem_attach xs ⟨x, hx⟩)
  · intro h x _
    exact h x.1 x.2

/-- Membership-based characterisation of `noNp` on dicts. -/
theorem noNp_dict_iff (kvs : List (String × PyVal)) :
    noNp (.dict kvs) = true ↔ ∀ p ∈ kvs, noNp p.2 = true := by
  rw [noNp, List.all_eq_true]
  constructor
  · intro h p hp
    exact h ⟨p, hp⟩ (List.mem_attach kvs ⟨p, hp⟩)
  · intro h p _
    exact h p.1 p.2

/-- Induction principle for `PyVal` with membership hypotheses for the
elements of lists and dicts (the recursor generated for the nested
inductive is inconvenient to use directly). -/
theorem PyVal.memInduction {motive : PyVal → Prop}
    (hnone : motive .none) (hbool : ∀ b, motive (.bool b))
    (hint : ∀ n, motive (.int n)) (hfloat : ∀ q, motive (.float q))
    (hstr : ∀ s, motive (.str s))
    (hlist : ∀ xs, (∀ x ∈ xs, motive x) → motive (.list xs))
    (hdict : ∀ kvs, (∀ p ∈ kvs, motive p.2) → motive (.dict kvs))
    (hnpf : ∀ q, motive (.npFloating q)) (hnpi : ∀ n, motive (.npInteger n))
    (hnparr : ∀ xs, motive (.npNdarray xs)) :
    ∀ x, motive x := fun x =>
  match x with
  | .none => hnone
  | .bool b => hbool b
  | .int n => hint n
  | .float q => hfloat q
  | .str s => hstr s
  | .list xs => hlist xs (fun y _ =>
      PyVal.memInduction hnone hbool hint hfloat hstr hlist hdict hnpf hnpi hnparr y)
  | .dict kvs => hdict kvs (fun p _ =>
      PyVal.memInduction hnone hbool hint hfloat hstr hlist hdict hnpf hnpi hnparr p.2)
  | .npFloating q => hnpf q
  | .npInteger n => hnpi n
  | .npNdarray xs => hnparr xs
decreasing_by
  · have h := List.sizeOf_lt_of_mem (by assumption : y ∈ xs)
    simp only [PyVal.list.sizeOf_spec]
    omega
  · have h := List.sizeOf_lt_of_mem (by assumption : p ∈ kvs)
    have h2 : sizeOf p.2 < sizeOf p := by
      obtain ⟨a, b⟩ := p
      simp only [Prod.mk.sizeOf_spec]
      omega
    simp only [PyVal.dict.sizeOf_spec]
    omega

/-- Induction principle for `NpElem` with membership hypotheses for array
elements. -/
theorem NpElem.arrInduction {motive : NpElem → Prop}
    (hf : ∀ q, motive (.f q)) (hi : ∀ n, motive (.i n))
    (harr : ∀ xs, (∀ x ∈ xs, motive x) → motive (.arr xs)) :
    ∀ x, motive x := fun x =>
  match x with
  | .f q => hf q
  | .i n => hi n
  | .arr xs => harr xs (fun y _ => NpElem.arrInduction hf hi harr y)
decreasing_by
  have h := List.sizeOf_lt_of_mem (by assumption : y ∈ xs)
  simp only [NpElem.arr.sizeOf_spec]
  omega

/-- Unfolding lemma: `prepare_data_for_json` converts an ndarray via
`tolist`. -/
theorem prepare_npNdarray (xs : List NpElem) :
    prepare_data_for_json (.npNdarray xs) = .list (xs.map NpElem.toPy) := by
  rw [prepare_data_for_json]

/-- `ndarray.tolist()` output is NumPy-free. -/
theorem noNp_toPy (e : NpElem) : noNp (NpElem.toPy e) = true := by
  induction e using NpElem.arrInduction with
  | hf q => simp [NpElem.toPy, noNp]
  | hi n => simp [NpElem.toPy, noNp]
  | harr xs ih =>
    rw [NpElem.toPy_arr, noNp_list_iff]
    intro y hy
    obtain ⟨z, hz, rfl⟩ := List.mem_map.mp hy
    exact ih z hz

/-- The output of `prepare_data_for_json` is always NumPy-free. -/
theorem noNp_prepare (x : PyVal) : noNp (prepare_data_for_json x) = true := by
  induction x using PyVal.memInduction with
  | hnone => simp [prepare_data_for_json, noNp]
  | hbool b => simp [prepare_data_for_json, noNp]
  | hint n => simp [prepare_data_for_json, noNp]
  | hfloat q => simp [prepare_data_for_json, noNp]
  | hstr s => simp [prepare_data_for_json, noNp]
  | hlist xs ih =>
    rw [prepare_list, noNp_list_iff]
    intro y hy
    obtain ⟨z, hz, rfl⟩ := List.mem_map.mp hy
    exact ih z hz
  | hdict kvs ih =>
    rw [prepare_dict, noNp_dict_iff]
    intro p hp
    obtain ⟨q, hq, rfl⟩ := List.mem_map.mp hp
    exact ih q hq
  | hnpf q => simp [prepare_data_for_json, noNp]
  | hnpi n => simp [prepare_data_for_json, noNp]
  | hnparr xs =>
    rw [prepare_npNdarray, noNp_list_iff]
    intro y hy
    obtain ⟨z, hz, rfl⟩ := List.mem_map.mp hy
    exact noNp_toPy z

/-- `prepare_data_for_json` fixes every NumPy-free value. -/
theorem prepare_of_noNp (x : PyVal) (h : noNp x = true) :
    prepare_data_for_json x = x := by
  induction x using PyVal.memInduction with
  | hnone => simp [prepare_data_for_json]
  | hbool b => simp [prepare_data_for_json]
  | hint n => simp [prepare_data_for_json]
  | hfloat q => simp [prepare_data_for_json]
  | hstr s => simp [prepare_data_for_json]
  | hlist xs ih =>
    rw [noNp_list_iff] at h
    rw [prepare_list]
    have h2 : xs.map prepare_data_for_json = xs.map id :=
      List.map_congr_left fun y hy => ih y hy (h y hy)
    rw [h2, List.map_id]
  | hdict kvs ih =>
    rw [noNp_dict_iff] at h
    rw [prepare_dict]
    have h2 : (kvs.map fun p => (p.1, prepare_data_for_json p.2)) = kvs.map id := by
      refine List.map_congr_left fun p hp => ?_
      simp [ih p hp (h p hp)]
    rw [h2, List.map_id]
  | hnpf q => simp [noNp] at h
  | hnpi n => simp [noNp] at h
  | hnparr xs => simp [noNp] at h

/-- Python truthiness (`if not x`).  The handler only tests it on
JSON-parsed request values and on normalized (NumPy-free) service output,
so the three NumPy cases are unreachable there; they are given the obvious
scalar/emptiness readings for totality. -/
def truthy : PyVal → Bool
  | .none => false
  | .bool b => b
  | .int n => n != 0
  | .float q => q != 0
  | .str s => s != ""
  | .list xs => !xs.isEmpty
  | .dict kvs => !kvs.isEmpty
  | .npFloating q => q != 0
  | .npInteger n => n != 0
  | .npNdarray xs => !xs.isEmpty

/-- Python `d.get(k, default)` on a mapping.  On a non-mapping Python
raises `AttributeError`; the handler theorems apply this only at mapping
values (their hypotheses fix the dict shape), so the fallback on the other
constructors is never exercised. -/
def pyGetD (v : PyVal) (k : String) (d : PyVal) : PyVal :=
  match v with
  | .dict kvs => (kvs.lookup k).getD d
  | _ => d

/-- An HTTP response as produced by the Flask handler: the `jsonify`-ed
body (modelled as the value itself) and the status code. -/
structure HttpResp : Type where
  body : PyVal
  status : Nat

/-- The four out-of-scope collaborators of `analyze_turn`, as black boxes.
The three external service calls may raise (`Except ε` with an opaque
exception type `ε`); the trigger-word checker is a pure local function
receiving whatever value sits under the transcript key. -/
structure Clients (ε : Type) : Type where
  analyze_audio : PyVal → Except ε PyVal
  analyze_video : PyVal → Except ε PyVal
  check_trigger_words : PyVal → Bool × String
  call_openai_therapy_model : PyVal → PyVal → PyVal → PyVal → Except ε PyVal

/-- The fixed distress reply of the emergency branch (main.py line 78). -/
def distress_reply : String :=
  "It sounds like you might be in distress. Please reach out to immediate help or call a trusted person right now. You\x27re not alone."

/-- The emergency payload assembled at main.py lines 75-84. -/
def emergency_response (assembly_data deepface_data : PyVal) (word : String) : PyVal :=
  .dict [("assemblyAI_output", assembly_data),
         ("deepface_output", deepface_data),
         ("bot_reply", .str distress_reply),
         ("diagnostic_match", .bool false),
         ("conversation_type", .str "emergency"),
         ("diagnostic_mapping", .list []),
         ("emergency", .bool true),
         ("triggered_word", .str word)]

/-- The normal payload assembled at main.py lines 92-100.
`diagnostic_match` is `False if not model_output.get("diagnostic_mapping")
else True`, a truthiness test on the value with default `None`. -/
def response_payload (assembly_data deepface_data model_output : PyVal) : PyVal :=
  .dict [("assemblyAI_output", assembly_data),
         ("deepface_output", deepface_data),
         ("bot_reply", pyGetD model_output "bot_reply" .none),
         ("diagnostic_match", .bool (truthy (pyGetD model_output "diagnostic_mapping" .none))),
         ("conversation_type", pyGetD model_output "conversation_type" (.str "free_talk")),
         ("diagnostic_mapping", pyGetD model_output "diagnostic_mapping" (.dict [])),
         ("emergency", .bool false)]

/-- The `POST /analyze_turn` handler (main.py lines 44-102), parameterised
over the external clients.  `data` is the JSON object of the request body
(`request.get_json()`), an association list with the unique-key property
of Python dicts.  Defaults follow the source: `questionnaires` defaults to
an empty mapping, `past_turns` to an empty list, and `video_url` to an
empty dict (which is falsy, so an absent url fails validation). -/
def analyze_turn {ε : Type} (c : Clients ε) (data : List (String × PyVal)) :
    Except ε HttpResp :=
  let questionnaires := (data.lookup "questionnaires").getD (.dict [])
  let past_turns := (data.lookup "past_turns").getD (.list [])
  let video_file := (data.lookup "video_url").getD (.dict [])
  if truthy video_file = false then
    .ok ⟨.dict [("error", .str "Missing video url")], 400⟩
  else
    match c.analyze_audio video_file with
    | .error e => .error e
    | .ok audio_raw =>
      let assembly_data := prepare_data_for_json audio_raw
      match c.analyze_video video_file with
      | .error e => .error e
      | .ok video_raw =>
        let deepface_data := prepare_data_for_json video_raw
        let transcript := pyGetD assembly_data "transcript" .none
        if truthy transcript = false then
          .ok ⟨.dict [("error", .str "Missing transcript")], 400⟩
        else
          let ft := c.check_trigger_words transcript
          if ft.1 then
            .ok ⟨emergency_response assembly_data deepface_data ft.2, 200⟩
          else
            match c.call_openai_therapy_model assembly_data deepface_data
                questionnaires past_turns with
            | .error e => .error e
            | .ok model_output =>
              .ok ⟨response_payload assembly_data deepface_data model_output, 200⟩

/-- The handler with the two independent analysis calls swapped (video
before audio), the reordering contemplated in spec section 9; everything
else is identical to `analyze_turn`. -/
def analyze_turn_swapped {ε : Type} (c : Clients ε) (data : List (String × PyVal)) :
    Except ε HttpResp :=
  let questionnaires := (data.lookup "questionnaires").getD (.dict [])
  let past_turns := (data.lookup "past_turns").getD (.list [])
  let video_file := (data.lookup "video_url").getD (.dict [])
  if truthy video_file = false then
    .ok ⟨.dict [("error", .str "Missing video url")], 400⟩
  else
    match c.analyze_video video_file with
    | .error e => .error e
    | .ok video_raw =>
      let deepface_data := prepare_data_for_json video_raw
      match c.analyze_audio video_file with
      | .error e => .error e
      | .ok audio_raw =>
        let assembly_data := prepare_data_for_json audio_raw
        let transcript := pyGetD assembly_data "transcript" .none
        if truthy transcript = false then
          .ok ⟨.dict [("error", .str "Missing transcript")], 400⟩
        else
          let ft := c.check_trigger_words transcript
          if ft.1 then
            .ok ⟨emergency_response assembly_data deepface_data ft.2, 200⟩
          else
            match c.call_openai_therapy_model assembly_data deepface_data
                questionnaires past_turns with
            | .error e => .error e
            | .ok model_output =>
              .ok ⟨response_payload assembly_data deepface_data model_output, 200⟩

/-- Claim C6: the numeric normalization `prepare_data_for_json` is
idempotent — applying it twice yields the same result as applying it
once — and every leaf of its output is a plain primitive: no NumPy
wrapper type (float, integer or array) survives. -/
theorem prepare_data_for_json_idempotent_and_plain (x : PyVal) :
    prepare_data_for_json (prepare_data_for_json x) = prepare_data_for_json x ∧
      noNp (prepare_data_for_json x) = true :=
  ⟨prepare_of_noNp _ (noNp_prepare x), noNp_prepare x⟩

/-- Claim C7: `prepare_data_for_json` recurses into dicts preserving the
key sequence, recurses into lists preserving length and element order
(the i-th output element is the normalization of the i-th input element),
converts the NumPy wrappers to plain numbers and plain lists, and returns
every non-wrapper scalar (None, booleans, plain ints, plain floats,
strings) unchanged. -/
theorem prepare_data_for_json_structure :
    (∀ kvs : List (String × PyVal),
        prepare_data_for_json (.dict kvs) =
          .dict (kvs.map fun p => (p.1, prepare_data_for_json p.2)) ∧
        (kvs.map fun p => (p.1, prepare_data_for_json p.2)).map Prod.fst =
          kvs.map Prod.fst) ∧
    (∀ xs : List PyVal,
        prepare_data_for_json (.list xs) = .list (xs.map prepare_data_for_json) ∧
        (xs.map prepare_data_for_json).length = xs.length ∧
        ∀ i : Nat, (xs.map prepare_data_for_json)[i]? =
          (xs[i]?).map prepare_data_for_json) ∧
    (∀ q, prepare_data_for_json (.npFloating q) = .float q) ∧
    (∀ n, prepare_data_for_json (.npInteger n) = .int n) ∧
    (∀ xs, prepare_data_for_json (.npNdarray xs) = .list (xs.map NpElem.toPy)) ∧
    prepare_data_for_json .none = .none ∧
    (∀ b, prepare_data_for_json (.bool b) = .bool b) ∧
    (∀ n, prepare_data_for_json (.int n) = .int n) ∧
    (∀ q, prepare_data_for_json (.float q) = .float q) ∧
    (∀ s, prepare_data_for_json (.str s) = .str s) := by
  refine ⟨fun kvs => ⟨prepare_dict kvs, ?_⟩,
          fun xs => ⟨prepare_list xs, by simp, fun i => by simp⟩,
          fun q => by simp [prepare_data_for_json],
          fun n => by simp [prepare_data_for_json],
          fun xs => prepare_npNdarray xs,
          by simp [prepare_data_for_json],
          fun b => by simp [prepare_data_for_json],
          fun n => by simp [prepare_data_for_json],
          fun q => by simp [prepare_data_for_json],
          fun s => by simp [prepare_data_for_json]⟩
  simp [List.map_map]

/-- Claim C1: on a validated request whose transcript contains a
configured trigger phrase, `analyze_turn` returns HTTP 200 with the
emergency payload — `emergency: true`, the fixed distress `bot_reply`,
`diagnostic_match: false`, `conversation_type: "emergency"`, empty
`diagnostic_mapping`, and `triggered_word` equal to the matched phrase —
and the therapy-model client is never invoked: replacing it by any other
client leaves the response unchanged. -/
theorem analyze_turn_emergency {ε : Type} (c : Clients ε)
    (data : List (String × PyVal)) (vf audio_raw video_raw A D t : PyVal)
    (w : String)
    (hvf : (data.lookup "video_url").getD (.dict []) = vf)
    (hv : truthy vf = true)
    (ha : c.analyze_audio vf = .ok audio_raw)
    (hA : prepare_data_for_json audio_raw = A)
    (hd : c.analyze_video vf = .ok video_raw)
    (hD : prepare_data_for_json video_raw = D)
    (htv : pyGetD A "transcript" .none = t)
    (ht : truthy t = true)
    (hw : c.check_trigger_words t = (true, w)) :
    analyze_turn c data = .ok ⟨emergency_response A D w, 200⟩ ∧
    ∀ m, analyze_turn { c with call_openai_therapy_model := m } data =
      analyze_turn c data := by
  constructor
  · simp only [analyze_turn, hvf, hv, ha, hA, hd, hD, htv, ht, hw]
    simp
  · intro m
    simp only [analyze_turn, hvf, hv, ha, hA, hd, hD, htv, ht, hw]
    simp

/-- A well-formed turn request with a non-empty video url, used by the
concrete example theorems. -/
def reqOk : List (String × PyVal) :=
  [("questionnaires", .dict [("phq9", .list [.int 1, .int 2])]),
   ("past_turns", .list []),
   ("video_url", .str "https://example.com/turn0.mp4")]

/-- Clients for the emergency example: the audio service hears a trigger
phrase (with a NumPy sentiment score attached) and the checker reports
the phrase. -/
def cEmg : Clients Nat :=
  { analyze_audio := fun _ => .ok (.dict
      [("transcript", .str "I want to end it all"),
       ("sentiment", .npFloating (1/2))]),
    analyze_video := fun _ => .ok (.dict [("dominant_emotion", .str "sad")]),
    check_trigger_words := fun _ => (true, "end it all"),
    call_openai_therapy_model := fun _ _ _ _ =>
      .ok (.dict [("bot_reply", .str "hello")]) }

/-- Witness for claim C1: the emergency payload on a concrete request. -/
theorem analyze_turn_emergency_witness :
    analyze_turn cEmg reqOk =
      .ok ⟨emergency_response
            (.dict [("transcript", .str "I want to end it all"),
                    ("sentiment", .float (1/2))])
            (.dict [("dominant_emotion", .str "sad")]) "end it all", 200⟩ ∧
    ∀ m, analyze_turn { cEmg with call_openai_therapy_model := m } reqOk =
      analyze_turn cEmg reqOk :=
  analyze_turn_emergency cEmg reqOk (.str "https://example.com/turn0.mp4")
    (.dict [("transcript", .str "I want to end it all"),
            ("sentiment", .npFloating (1/2))])
    (.dict [("dominant_emotion", .str "sad")])
    (.dict [("transcript", .str "I want to end it all"),
            ("sentiment", .float (1/2))])
    (.dict [("dominant_emotion", .str "sad")])
    (.str "I want to end it all") "end it all"
    rfl rfl rfl
    (by simp [prepare_dict, prepare_data_for_json])
    rfl
    (by simp [prepare_dict, prepare_data_for_json])
    rfl rfl rfl

/-- Claim C2: on a validated request whose transcript contains no trigger
phrase, the handler returns HTTP 200 with the normal payload:
`emergency: false`, `conversation_type` taken from the model output and
defaulting to "free_talk" when omitted, `diagnostic_mapping` taken from
the model output and defaulting to empty when omitted, and
`diagnostic_match` true exactly when the model output carries a non-empty
`diagnostic_mapping` (stated under the data-model typing that a present
`diagnostic_mapping` is a mapping; the code itself tests truthiness). -/
theorem analyze_turn_normal {ε : Type} (c : Clients ε)
    (data : List (String × PyVal)) (vf audio_raw video_raw A D t : PyVal)
    (mkvs : List (String × PyVal)) (w : String)
    (hvf : (data.lookup "video_url").getD (.dict []) = vf)
    (hv : truthy vf = true)
    (ha : c.analyze_audio vf = .ok audio_raw)
    (hA : prepare_data_for_json audio_raw = A)
    (hd : c.analyze_video vf = .ok video_raw)
    (hD : prepare_data_for_json video_raw = D)
    (htv : pyGetD A "transcript" .none = t)
    (ht : truthy t = true)
    (hw : c.check_trigger_words t = (false, w))
    (hm : c.call_openai_therapy_model A D
        ((data.lookup "questionnaires").getD (.dict []))
        ((data.lookup "past_turns").getD (.list [])) = .ok (.dict mkvs)) :
    analyze_turn c data = .ok ⟨response_payload A D (.dict mkvs), 200⟩ ∧
    pyGetD (response_payload A D (.dict mkvs)) "emergency" .none = .bool false ∧
    pyGetD (response_payload A D (.dict mkvs)) "conversation_type" .none =
      (mkvs.lookup "conversation_type").getD (.str "free_talk") ∧
    pyGetD (response_payload A D (.dict mkvs)) "diagnostic_mapping" .none =
      (mkvs.lookup "diagnostic_mapping").getD (.dict []) ∧
    ((∀ v, mkvs.lookup "diagnostic_mapping" = some v → ∃ l, v = PyVal.dict l) →
      (pyGetD (response_payload A D (.dict mkvs)) "diagnostic_match" .none =
          .bool true ↔
        ∃ l, mkvs.lookup "diagnostic_mapping" = some (PyVal.dict l) ∧ l ≠ [])) := by
  refine ⟨?_, ?_, ?_, ?_, ?_⟩
  · simp only [analyze_turn, hvf, hv, ha, hA, hd, hD, htv, ht, hw, hm]
    simp
  · simp [response_payload, pyGetD, List.lookup]
  · simp [response_payload, pyGetD, List.lookup]
  · simp [response_payload, pyGetD, List.lookup]
  · intro hshape
    cases hlk : mkvs.lookup "diagnostic_mapping" with
    | none =>
      simp [response_payload, pyGetD, List.lookup, hlk, truthy]
    | some v =>
      obtain ⟨l, rfl⟩ := hshape v hlk
      simp [response_payload, pyGetD, List.lookup, hlk, truthy]

/-- Clients for the normal example (spec section 8 scenario): the audio
service hears "I had a good day", no trigger phrase is found, the model
replies with an empty diagnostic mapping; the raw service outputs carry
NumPy wrapper values. -/
def cNorm : Clients Nat :=
  { analyze_audio := fun _ => .ok (.dict
      [("transcript", .str "I had a good day"),
       ("confidence", .npFloating (9/10))]),
    analyze_video := fun _ => .ok (.dict
      [("dominant_emotion", .str "happy"),
       ("scores", .npNdarray [.f (1/4), .f (3/4)])]),
    check_trigger_words := fun _ => (false, ""),
    call_openai_therapy_model := fun _ _ _ _ => .ok (.dict
      [("bot_reply", .str "Glad to hear!"), ("diagnostic_mapping", .dict [])]) }

/-- Witness for claim C2: the normal payload on a concrete request with an
empty diagnostic mapping, hence `diagnostic_match` false. -/
theorem analyze_turn_normal_witness :
    analyze_turn cNorm reqOk =
      .ok ⟨response_payload
            (.dict [("transcript", .str "I had a good day"),
                    ("confidence", .float (9/10))])
            (.dict [("dominant_emotion", .str "happy"),
                    ("scores", .list [.float (1/4), .float (3/4)])])
            (.dict [("bot_reply", .str "Glad to hear!"),
                    ("diagnostic_mapping", .dict [])]), 200⟩ ∧
    pyGetD (response_payload
            (.dict [("transcript", .str "I had a good day"),
                    ("confidence", .float (9/10))])
            (.dict [("dominant_emotion", .str "happy"),
                    ("scores", .list [.float (1/4), .float (3/4)])])
            (.dict [("bot_reply", .str "Glad to hear!"),
                    ("diagnostic_mapping", .dict [])]))
        "emergency" .none = .bool false ∧
    pyGetD (response_payload
            (.dict [("transcript", .str "I had a good day"),
                    ("confidence", .float (9/10))])
            (.dict [("dominant_emotion", .str "happy"),
                    ("scores", .list [.float (1/4), .float (3/4)])])
            (.dict [("bot_reply", .str "Glad to hear!"),
                    ("diagnostic_mapping", .dict [])]))
        "conversation_type" .none =
      (([("bot_reply", PyVal.str "Glad to hear!"),
         ("diagnostic_mapping", PyVal.dict [])] : List (String × PyVal)).lookup
        "conversation_type").getD (.str "free_talk") ∧
    pyGetD (response_payload
            (.dict [("transcript", .str "I had a good day"),
                    ("confidence", .float (9/10))])
            (.dict [("dominant_emotion", .str "happy"),
                    ("scores", .list [.float (1/4), .float (3/4)])])
            (.dict [("bot_reply", .str "Glad to hear!"),
                    ("diagnostic_mapping", .dict [])]))
        "diagnostic_mapping" .none =
      (([("bot_reply", PyVal.str "Glad to hear!"),
         ("diagnostic_mapping", PyVal.dict [])] : List (String × PyVal)).lookup
        "diagnostic_mapping").getD (.dict []) ∧
    ((∀ v, ([("bot_reply", PyVal.str "Glad to hear!"),
             ("diagnostic_mapping", PyVal.dict [])] : List (String × PyVal)).lookup
          "diagnostic_mapping" = some v → ∃ l, v = PyVal.dict l) →
      (pyGetD (response_payload
            (.dict [("transcript", .str "I had a good day"),
                    ("confidence", .float (9/10))])
            (.dict [("dominant_emotion", .str "happy"),
                    ("scores", .list [.float (1/4), .float (3/4)])])
            (.dict [("bot_reply", .str "Glad to hear!"),
                    ("diagnostic_mapping", .dict [])]))
          "diagnostic_match" .none = .bool true ↔
        ∃ l, ([("bot_reply", PyVal.str "Glad to hear!"),
               ("diagnostic_mapping", PyVal.dict [])] : List (String × PyVal)).lookup
            "diagnostic_mapping" = some (PyVal.dict l) ∧ l ≠ [])) :=
  analyze_turn_normal cNorm reqOk (.str "https://example.com/turn0.mp4")
    (.dict [("transcript", .str "I had a good day"),
            ("confidence", .npFloating (9/10))])
    (.dict [("dominant_emotion", .str "happy"),
            ("scores", .npNdarray [.f (1/4), .f (3/4)])])
    (.dict [("transcript", .str "I had a good day"),
            ("confidence", .float (9/10))])
    (.dict [("dominant_emotion", .str "happy"),
            ("scores", .list [.float (1/4), .float (3/4)])])
    (.str "I had a good day")
    [("bot_reply", .str "Glad to hear!"), ("diagnostic_mapping", .dict [])]
    ""
    rfl rfl rfl
    (by simp [prepare_dict, prepare_data_for_json])
    rfl
    (by simp [prepare_dict, prepare_data_for_json, NpElem.toPy])
    rfl rfl rfl rfl

/-- Claim C3: a request whose video_url field is absent, None, or the
empty string gets HTTP 400 with body {"error": "Missing video url"}.  The
clients are universally quantified and the response is the same for every
choice of them, so none of the three external services can influence (or
be reached by) this path. -/
theorem analyze_turn_missing_video {ε : Type} (c : Clients ε)
    (data : List (String × PyVal))
    (hv : data.lookup "video_url" = Option.none ∨
          data.lookup "video_url" = some PyVal.none ∨
          data.lookup "video_url" = some (PyVal.str "")) :
    analyze_turn c data =
      .ok ⟨.dict [("error", .str "Missing video url")], 400⟩ ∧
    ∀ c2 : Clients ε, analyze_turn c2 data = analyze_turn c data := by
  have h : truthy ((data.lookup "video_url").getD (.dict [])) = false := by
    rcases hv with h | h | h <;> simp [h, truthy]
  constructor
  · simp only [analyze_turn, h]
    simp
  · intro c2
    simp only [analyze_turn, h]
    simp

/-- The spec section 8 scenario request: empty video_url. -/
def reqNoUrl : List (String × PyVal) :=
  [("video_url", .str ""), ("questionnaires", .dict []), ("past_turns", .list [])]

/-- Witness for claim C3 at the spec scenario input
`{"video_url": "", "questionnaires": {}, "past_turns": []}`. -/
theorem analyze_turn_missing_video_witness :
    analyze_turn cNorm reqNoUrl =
      .ok ⟨.dict [("error", .str "Missing video url")], 400⟩ ∧
    ∀ c2 : Clients Nat, analyze_turn c2 reqNoUrl = analyze_turn cNorm reqNoUrl :=
  analyze_turn_missing_video cNorm reqNoUrl (Or.inr (Or.inr rfl))

/-- Claim C4: when the (normalized) audio result has no transcript key,
the handler returns HTTP 400 with body {"error": "Missing transcript"},
and the therapy-model client is never invoked: replacing it by any other
client leaves the response unchanged. -/
theorem analyze_turn_missing_transcript {ε : Type} (c : Clients ε)
    (data : List (String × PyVal)) (vf audio_raw video_raw : PyVal)
    (Akvs : List (String × PyVal))
    (hvf : (data.lookup "video_url").getD (.dict []) = vf)
    (hv : truthy vf = true)
    (ha : c.analyze_audio vf = .ok audio_raw)
    (hA : prepare_data_for_json audio_raw = .dict Akvs)
    (hnk : Akvs.lookup "transcript" = Option.none)
    (hd : c.analyze_video vf = .ok video_raw) :
    analyze_turn c data =
      .ok ⟨.dict [("error", .str "Missing transcript")], 400⟩ ∧
    ∀ m, analyze_turn { c with call_openai_therapy_model := m } data =
      analyze_turn c data := by
  have ht : truthy (pyGetD (.dict Akvs) "transcript" .none) = false := by
    simp [pyGetD, hnk, truthy]
  constructor
  · simp only [analyze_turn, hvf, hv, ha, hA, hd, ht]
    simp
  · intro m
    simp only [analyze_turn, hvf, hv, ha, hA, hd, ht]
    simp

/-- Clients for the missing-transcript example: the audio service returns
a result without a transcript key. -/
def cNoTrans : Clients Nat :=
  { analyze_audio := fun _ => .ok (.dict [("status", .str "failed")]),
    analyze_video := fun _ => .ok (.dict [("dominant_emotion", .str "neutral")]),
    check_trigger_words := fun _ => (false, ""),
    call_openai_therapy_model := fun _ _ _ _ => .ok (.dict []) }

/-- Witness for claim C4: a concrete request whose audio analysis comes
back without a transcript key. -/
theorem analyze_turn_missing_transcript_witness :
    analyze_turn cNoTrans reqOk =
      .ok ⟨.dict [("error", .str "Missing transcript")], 400⟩ ∧
    ∀ m, analyze_turn { cNoTrans with call_openai_therapy_model := m } reqOk =
      analyze_turn cNoTrans reqOk :=
  analyze_turn_missing_transcript cNoTrans reqOk
    (.str "https://example.com/turn0.mp4")
    (.dict [("status", .str "failed")])
    (.dict [("dominant_emotion", .str "neutral")])
    [("status", .str "failed")]
    rfl rfl rfl
    (by simp [prepare_dict, prepare_data_for_json])
    rfl rfl

/-- Claim C10: the transcript check tests Python falsiness of the value,
not just absence of the key: a transcript key present but holding a falsy
value (empty string, None, and so on) also yields HTTP 400 with body
{"error": "Missing transcript"}. -/
theorem analyze_turn_falsy_transcript {ε : Type} (c : Clients ε)
    (data : List (String × PyVal)) (vf audio_raw video_raw t : PyVal)
    (Akvs : List (String × PyVal))
    (hvf : (data.lookup "video_url").getD (.dict []) = vf)
    (hv : truthy vf = true)
    (ha : c.analyze_audio vf = .ok audio_raw)
    (hA : prepare_data_for_json audio_raw = .dict Akvs)
    (hk : Akvs.lookup "transcript" = some t)
    (hfalsy : truthy t = false)
    (hd : c.analyze_video vf = .ok video_raw) :
    analyze_turn c data =
      .ok ⟨.dict [("error", .str "Missing transcript")], 400⟩ := by
  have ht : truthy (pyGetD (.dict Akvs) "transcript" .none) = false := by
    simp [pyGetD, hk, hfalsy]
  simp only [analyze_turn, hvf, hv, ha, hA, hd, ht]
  simp

/-- Clients for the falsy-transcript example: the audio service returns an
empty transcript string. -/
def cEmptyTrans : Clients Nat :=
  { analyze_audio := fun _ => .ok (.dict [("transcript", .str "")]),
    analyze_video := fun _ => .ok (.dict [("dominant_emotion", .str "neutral")]),
    check_trigger_words := fun _ => (false, ""),
    call_openai_therapy_model := fun _ _ _ _ => .ok (.dict []) }

/-- Witness for claim C10: a present-but-empty transcript also yields the
missing-transcript 400 response. -/
theorem analyze_turn_falsy_transcript_witness :
    analyze_turn cEmptyTrans reqOk =
      .ok ⟨.dict [("error", .str "Missing transcript")], 400⟩ :=
  analyze_turn_falsy_transcript cEmptyTrans reqOk
    (.str "https://example.com/turn0.mp4")
    (.dict [("transcript", .str "")])
    (.dict [("dominant_emotion", .str "neutral")])
    (.str "")
    [("transcript", .str "")]
    rfl rfl rfl
    (by simp [prepare_dict, prepare_data_for_json])
    rfl rfl rfl

/-- Claim C5: every request that reaches the trigger check (valid video
url, both analyses succeeded, truthy transcript; with a well-typed model
reply available for the non-trigger branch) produces exactly one of the
two HTTP-200 response shapes: the emergency payload exactly when a
trigger phrase was found, the normal payload exactly otherwise — never
both (the two shapes are provably distinct) and never neither; the
emergency flag of the body equals the trigger flag. -/
theorem analyze_turn_exactly_one_shape {ε : Type} (c : Clients ε)
    (data : List (String × PyVal)) (vf audio_raw video_raw A D t : PyVal)
    (mkvs : List (String × PyVal))
    (hvf : (data.lookup "video_url").getD (.dict []) = vf)
    (hv : truthy vf = true)
    (ha : c.analyze_audio vf = .ok audio_raw)
    (hA : prepare_data_for_json audio_raw = A)
    (hd : c.analyze_video vf = .ok video_raw)
    (hD : prepare_data_for_json video_raw = D)
    (htv : pyGetD A "transcript" .none = t)
    (ht : truthy t = true)
    (hm : c.call_openai_therapy_model A D
        ((data.lookup "questionnaires").getD (.dict []))
        ((data.lookup "past_turns").getD (.list [])) = .ok (.dict mkvs)) :
    ∃ r : HttpResp, analyze_turn c data = .ok r ∧ r.status = 200 ∧
      (((c.check_trigger_words t).1 = true ∧
          r.body = emergency_response A D (c.check_trigger_words t).2) ∨
       ((c.check_trigger_words t).1 = false ∧
          r.body = response_payload A D (.dict mkvs))) ∧
      emergency_response A D (c.check_trigger_words t).2 ≠
        response_payload A D (.dict mkvs) ∧
      pyGetD r.body "emergency" .none = .bool (c.check_trigger_words t).1 := by
  have hne : emergency_response A D (c.check_trigger_words t).2 ≠
      response_payload A D (.dict mkvs) := by
    intro h
    simp [emergency_response, response_payload] at h
  cases hfw : (c.check_trigger_words t).1 with
  | true =>
    refine ⟨⟨emergency_response A D (c.check_trigger_words t).2, 200⟩,
      ?_, rfl, Or.inl ⟨rfl, rfl⟩, hne, ?_⟩
    · simp only [analyze_turn, hvf, hv, ha, hA, hd, hD, htv, ht, hfw]
      simp
    · simp [emergency_response, pyGetD, List.lookup, hfw]
  | false =>
    refine ⟨⟨response_payload A D (.dict mkvs), 200⟩,
      ?_, rfl, Or.inr ⟨rfl, rfl⟩, hne, ?_⟩
    · simp only [analyze_turn, hvf, hv, ha, hA, hd, hD, htv, ht, hfw, hm]
      simp
    · simp [response_payload, pyGetD, List.lookup, hfw]

/-- Witness for claim C5 at the concrete non-trigger request: the normal
shape and only it is produced, with `emergency: false`. -/
theorem analyze_turn_exactly_one_shape_witness :
    ∃ r : HttpResp, analyze_turn cNorm reqOk = .ok r ∧ r.status = 200 ∧
      (((cNorm.check_trigger_words (.str "I had a good day")).1 = true ∧
          r.body = emergency_response
            (.dict [("transcript", .str "I had a good day"),
                    ("confidence", .float (9/10))])
            (.dict [("dominant_emotion", .str "happy"),
                    ("scores", .list [.float (1/4), .float (3/4)])])
            (cNorm.check_trigger_words (.str "I had a good day")).2) ∨
       ((cNorm.check_trigger_words (.str "I had a good day")).1 = false ∧
          r.body = response_payload
            (.dict [("transcript", .str "I had a good day"),
                    ("confidence", .float (9/10))])
            (.dict [("dominant_emotion", .str "happy"),
                    ("scores", .list [.float (1/4), .float (3/4)])])
            (.dict [("bot_reply", .str "Glad to hear!"),
                    ("diagnostic_mapping", .dict [])]))) ∧
      emergency_response
          (.dict [("transcript", .str "I had a good day"),
                  ("confidence", .float (9/10))])
          (.dict [("dominant_emotion", .str "happy"),
                  ("scores", .list [.float (1/4), .float (3/4)])])
          (cNorm.check_trigger_words (.str "I had a good day")).2 ≠
        response_payload
          (.dict [("transcript", .str "I had a good day"),
                  ("confidence", .float (9/10))])
          (.dict [("dominant_emotion", .str "happy"),
                  ("scores", .list [.float (1/4), .float (3/4)])])
          (.dict [("bot_reply", .str "Glad to hear!"),
                  ("diagnostic_mapping", .dict [])]) ∧
      pyGetD r.body "emergency" .none =
        .bool (cNorm.check_trigger_words (.str "I had a good day")).1 :=
  analyze_turn_exactly_one_shape cNorm reqOk
    (.str "https://example.com/turn0.mp4")
    (.dict [("transcript", .str "I had a good day"),
            ("confidence", .npFloating (9/10))])
    (.dict [("dominant_emotion", .str "happy"),
            ("scores", .npNdarray [.f (1/4), .f (3/4)])])
    (.dict [("transcript", .str "I had a good day"),
            ("confidence", .float (9/10))])
    (.dict [("dominant_emotion", .str "happy"),
            ("scores", .list [.float (1/4), .float (3/4)])])
    (.str "I had a good day")
    [("bot_reply", .str "Glad to hear!"), ("diagnostic_mapping", .dict [])]
    rfl rfl rfl
    (by simp [prepare_dict, prepare_data_for_json])
    rfl
    (by simp [prepare_dict, prepare_data_for_json, NpElem.toPy])
    rfl rfl rfl

/-- Claim C8: the audio-analysis and video-analysis calls have no data
dependency: for clients whose two analysis calls are pure (they always
return a value), the handler with the two calls swapped in order returns
exactly the same response as the original handler, on every request. -/
theorem analyze_turn_swap_equiv {ε : Type} (c : Clients ε)
    (data : List (String × PyVal))
    (ha : ∀ v, ∃ a, c.analyze_audio v = .ok a)
    (hd : ∀ v, ∃ d, c.analyze_video v = .ok d) :
    analyze_turn_swapped c data = analyze_turn c data := by
  obtain ⟨a, hA⟩ := ha ((data.lookup "video_url").getD (.dict []))
  obtain ⟨d, hD⟩ := hd ((data.lookup "video_url").getD (.dict []))
  simp only [analyze_turn, analyze_turn_swapped, hA, hD]

/-- Witness for claim C8 at a concrete request and pure clients. -/
theorem analyze_turn_swap_equiv_witness :
    analyze_turn_swapped cNorm reqOk = analyze_turn cNorm reqOk :=
  analyze_turn_swap_equiv cNorm reqOk
    (fun _ => ⟨_, rfl⟩) (fun _ => ⟨_, rfl⟩)

/-- Claim C9: an exception raised by any of the three external service
calls is not caught by the handler: the result is exactly the propagated
error — no mapping to a client-facing 400, no retry, no fallback
response. -/
theorem analyze_turn_propagates_exceptions {ε : Type} (c : Clients ε)
    (data : List (String × PyVal)) (vf : PyVal) (e : ε)
    (hvf : (data.lookup "video_url").getD (.dict []) = vf)
    (hv : truthy vf = true) :
    (c.analyze_audio vf = .error e → analyze_turn c data = .error e) ∧
    (∀ audio_raw, c.analyze_audio vf = .ok audio_raw →
      c.analyze_video vf = .error e → analyze_turn c data = .error e) ∧
    (∀ audio_raw video_raw, c.analyze_audio vf = .ok audio_raw →
      c.analyze_video vf = .ok video_raw →
      truthy (pyGetD (prepare_data_for_json audio_raw) "transcript" .none) =
        true →
      (c.check_trigger_words
        (pyGetD (prepare_data_for_json audio_raw) "transcript" .none)).1 =
        false →
      c.call_openai_therapy_model (prepare_data_for_json audio_raw)
        (prepare_data_for_json video_raw)
        ((data.lookup "questionnaires").getD (.dict []))
        ((data.lookup "past_turns").getD (.list [])) = .error e →
      analyze_turn c data = .error e) := by
  refine ⟨fun h => ?_, fun a hok h => ?_, fun a d haok hdok ht hf h => ?_⟩
  · simp only [analyze_turn, hvf, hv, h]
    simp
  · simp only [analyze_turn, hvf, hv, hok, h]
    simp
  · simp only [analyze_turn, hvf, hv, haok, hdok, ht, hf, h]
    simp

/-- Clients whose audio analysis raises. -/
def cErrAudio : Clients Nat :=
  { analyze_audio := fun _ => .error 7,
    analyze_video := fun _ => .ok (.dict []),
    check_trigger_words := fun _ => (false, ""),
    call_openai_therapy_model := fun _ _ _ _ => .ok (.dict []) }

/-- Clients whose video analysis raises. -/
def cErrVideo : Clients Nat :=
  { analyze_audio := fun _ => .ok (.dict [("transcript", .str "hi")]),
    analyze_video := fun _ => .error 8,
    check_trigger_words := fun _ => (false, ""),
    call_openai_therapy_model := fun _ _ _ _ => .ok (.dict []) }

/-- Clients whose therapy-model call raises. -/
def cErrModel : Clients Nat :=
  { analyze_audio := fun _ => .ok (.dict [("transcript", .str "hi")]),
    analyze_video := fun _ => .ok (.dict []),
    check_trigger_words := fun _ => (false, ""),
    call_openai_therapy_model := fun _ _ _ _ => .error 9 }

/-- Witness for claim C9: each of the three service exceptions surfaces
unchanged on a concrete request. -/
theorem analyze_turn_propagates_exceptions_witness :
    analyze_turn cErrAudio reqOk = .error 7 ∧
    analyze_turn cErrVideo reqOk = .error 8 ∧
    analyze_turn cErrModel reqOk = .error 9 :=
  ⟨(analyze_turn_propagates_exceptions cErrAudio reqOk
      (.str "https://example.com/turn0.mp4") 7 rfl rfl).1 rfl,
   (analyze_turn_propagates_exceptions cErrVideo reqOk
      (.str "https://example.com/turn0.mp4") 8 rfl rfl).2.1
      (.dict [("transcript", .str "hi")]) rfl rfl,
   (analyze_turn_propagates_exceptions cErrModel reqOk
      (.str "https://example.com/turn0.mp4") 9 rfl rfl).2.2
      (.dict [("transcript", .str "hi")]) (.dict [])
      rfl rfl
      (by simp [prepare_dict, prepare_data_for_json, pyGetD, truthy])
      (by simp [cErrModel, prepare_dict, prepare_data_for_json, pyGetD])
      rfl⟩
